import Mathlib

/-
Shallow embedding of the tisane repository's query/solving core.

Source files embedded:
  * src/tisane/random_effects.py   — random-effect constructors
  * src/tisane/smt/query_manager.py — QueryManager.solve, check_update_constraints,
      update_clauses, elicit_user_input, postprocess_query_results
  * src/tisane/code_generator.py   — generate_statsmodels_formula

Python values are embedded as plain Lean data: variables carry just their
name (the only field the embedded functions read), z3 facts are already-parsed
(function, start, end) triples (QueryManager.postprocess_query_results parses
the textual form `Func(a, b)` into exactly those three strings), the z3 solver
is an oracle function from the asserted facts to a check result, and Python
exceptions (assert, ValueError, KeyError, NotImplementedError) become explicit
error values.
-/

deriving instance DecidableEq for Except

namespace Tisane

/-- A variable, identified by its name (the only attribute the embedded
functions read). Mirrors `tisane.variable.AbstractVariable` as used by the
embedded code. -/
structure AbstractVariable where
  name : String
deriving DecidableEq

/-! ### random_effects.py -/

/-- `RandomSlope` from src/tisane/random_effects.py: stores `iv` and `groups`. -/
structure RandomSlope where
  iv : AbstractVariable
  groups : AbstractVariable
deriving DecidableEq

/-- `RandomIntercept` from src/tisane/random_effects.py: stores `groups`. -/
structure RandomIntercept where
  groups : AbstractVariable
deriving DecidableEq

/-- `CorrelatedRandomSlopeAndIntercept` from src/tisane/random_effects.py:
holds a `random_slope` and a `random_intercept`. -/
structure CorrelatedRandomSlopeAndIntercept where
  random_slope : RandomSlope
  random_intercept : RandomIntercept
deriving DecidableEq

/-- `UncorrelatedRandomSlopeAndIntercept` from src/tisane/random_effects.py:
holds a `random_slope` and a `random_intercept`. -/
structure UncorrelatedRandomSlopeAndIntercept where
  random_slope : RandomSlope
  random_intercept : RandomIntercept
deriving DecidableEq

/-- The single kind of failure a construction-time check could raise.  The
codomain of the constructor embeddings below uses `Except ConstructionError`
so that "construction fails with a construction error" is statable. -/
inductive ConstructionError where
  | constructionError
deriving DecidableEq

/-- `CorrelatedRandomSlopeAndIntercept.__init__(iv, groups)` from
src/tisane/random_effects.py lines 24-30.  The Python body is
`self.random_slope = RandomSlope(iv=iv, groups=groups)` and
`self.random_intercept = RandomIntercept(groups=groups)`; it contains no
assert and no raise, so the embedding always returns `Except.ok`. -/
def CorrelatedRandomSlopeAndIntercept.init (iv groups : AbstractVariable) :
    Except ConstructionError CorrelatedRandomSlopeAndIntercept :=
  Except.ok ⟨⟨iv, groups⟩, ⟨groups⟩⟩

/-- `UncorrelatedRandomSlopeAndIntercept.__init__(iv, groups)` from
src/tisane/random_effects.py lines 34-40; same body as the correlated
variant, with no assert and no raise. -/
def UncorrelatedRandomSlopeAndIntercept.init (iv groups : AbstractVariable) :
    Except ConstructionError UncorrelatedRandomSlopeAndIntercept :=
  Except.ok ⟨⟨iv, groups⟩, ⟨groups⟩⟩

/-- A heterogeneous random-effect entry, as stored in the Python list
`statistical_model.random_effects` (Python lists mix the four classes). -/
inductive RandomEffect where
  | slope (rs : RandomSlope)
  | intercept (ri : RandomIntercept)
  | correlated (c : CorrelatedRandomSlopeAndIntercept)
  | uncorrelated (u : UncorrelatedRandomSlopeAndIntercept)
deriving DecidableEq

/-! ### query_manager.py: QueryManager.elicit_user_input -/

namespace QueryManager

/-- Outcome of `QueryManager.elicit_user_input`: either the function returns
the `keep` list, or it raises `ValueError` (answer neither `-1` nor a valid
index), or the supplied answer stream is exhausted while the `while True`
loop is still prompting (`pending`). -/
inductive ElicitResult (α : Type) where
  | returned (keep : List α)
  | valueError
  | pending
deriving DecidableEq

/-- `QueryManager.elicit_user_input` from src/tisane/smt/query_manager.py
lines 125-141, with the interactive `input()` answers supplied as a list of
integers.  The loop: on answer `-1` it does `pass` (prompts again); on an
answer in `range(len(unsat_core))` it appends `unsat_core[idx]` to `keep`
and breaks, returning `keep`; on any other answer it raises `ValueError`. -/
def elicit_user_input {α : Type} (unsat_core : List α) : List Int → ElicitResult α
  | [] => ElicitResult.pending
  | idx :: rest =>
    if idx = -1 then
      elicit_user_input unsat_core rest
    else if h : 0 ≤ idx ∧ idx.toNat < unsat_core.length then
      ElicitResult.returned [unsat_core.get ⟨idx.toNat, h.2⟩]
    else
      ElicitResult.valueError

/-! ### query_manager.py: QueryManager.update_clauses -/

/-- `QueryManager.update_clauses(pushed_constraints, unsat_core, keep_clause)`
from src/tisane/smt/query_manager.py lines 107-120.  It first runs
`for c in keep_clause: assert(c in unsat_core)` (an AssertionError is
embedded as `none`), then keeps each pushed constraint `pc` unless
`pc in unsat_core and pc not in keep_clause`. -/
def update_clauses {F : Type} [DecidableEq F]
    (pushed_constraints unsat_core keep_clause : List F) : Option (List F) :=
  if ∀ c ∈ keep_clause, c ∈ unsat_core then
    some (pushed_constraints.filter fun pc =>
      if pc ∈ unsat_core ∧ pc ∉ keep_clause then false else true)
  else
    none

/-! ### query_manager.py: QueryManager.check_update_constraints -/

/-- Result of one call to `solver.check(assertions)`: z3 reports `sat`,
`unsat` (in which case `solver.unsat_core()` yields the core carried here —
the deterministic solver oracle ties the core to the check), or some other
state such as `unknown`. -/
inductive CheckResult (F : Type) where
  | sat
  | unsat (core : List F)
  | unknown
deriving DecidableEq

/-- Outcome of `QueryManager.check_update_constraints`: the function returns
the updated assertion list, or raises (AssertionError from a failed
`assert`, ValueError from an indeterminate solver state), or — a modelling
artifact for the unbounded recursion — runs out of fuel. -/
inductive CUCResult (F : Type) where
  | ok (assertions : List F)
  | assertFail
  | raisedValueError
  | fuelOut
deriving DecidableEq

/-- `true` exactly when the result is a normal return. -/
def CUCResult.isOk {F : Type} : CUCResult F → Bool
  | CUCResult.ok _ => true
  | _ => false

/-- `QueryManager.check_update_constraints(solver, assertions)` from
src/tisane/smt/query_manager.py lines 143-173.  The solver (with the rules
added so far) is the oracle `check`; the conflict-resolution decision
procedure (`elicit_user_input` in the source, an injected strategy per the
design) is `resolve`.  First check: on `unsat` it asserts the core is
non-empty, asks `resolve` for the clauses to keep, and rewrites the
assertions through `update_clauses`; on `sat` it leaves them unchanged; any
other state raises ValueError.  Second check on the (possibly updated)
assertions: `sat` returns them, `unsat` recurses, anything else raises
ValueError.  `fuel` bounds the recursion depth. -/
def check_update_constraints {F : Type} [DecidableEq F]
    (check : List F → CheckResult F) (resolve : List F → List F) :
    Nat → List F → CUCResult F
  | 0, _ => CUCResult.fuelOut
  | fuel + 1, assertions =>
    match check assertions with
    | CheckResult.unsat core =>
      if core.length > 0 then
        match update_clauses assertions core (resolve core) with
        | some updated =>
          match check updated with
          | CheckResult.sat => CUCResult.ok updated
          | CheckResult.unsat _ => check_update_constraints check resolve fuel updated
          | CheckResult.unknown => CUCResult.raisedValueError
        | none => CUCResult.assertFail
      else
        CUCResult.assertFail
    | CheckResult.sat =>
      match check assertions with
      | CheckResult.sat => CUCResult.ok assertions
      | CheckResult.unsat _ => check_update_constraints check resolve fuel assertions
      | CheckResult.unknown => CUCResult.raisedValueError
    | CheckResult.unknown => CUCResult.raisedValueError

/-! ### query_manager.py: QueryManager.solve -/

/-- Map a `CUCResult` to the value/exception `QueryManager.solve` propagates. -/
def CUCResult.toExcept {F : Type} : CUCResult F → Except String (List F)
  | CUCResult.ok u => Except.ok u
  | CUCResult.assertFail => Except.error "AssertionError"
  | CUCResult.raisedValueError => Except.error "ValueError"
  | CUCResult.fuelOut => Except.error "nonterminating"

/-- The loop body of `QueryManager.solve` (src/tisane/smt/query_manager.py
lines 88-102): for each rule batch, add the batch to the persistent solver
(`added` is the accumulated rule list, so the oracle for this iteration is
`check (added ++ batch)`), then call
`check_update_constraints(solver=s, assertions=facts)` — with the original
`facts`, which the loop never reassigns — and overwrite `updated_facts`
with its result.  Exceptions propagate out of the loop. -/
def solveGo {R F : Type} [DecidableEq F] (check : List R → List F → CheckResult F)
    (resolve : List F → List F) (fuel : Nat) (facts : List F) :
    List (List R) → List R → List F → Except String (List F)
  | [], _, updated_facts => Except.ok updated_facts
  | batch :: rest, added, _updated_facts =>
    match check_update_constraints (check (added ++ batch)) resolve fuel facts with
    | CUCResult.ok u => solveGo check resolve fuel facts rest (added ++ batch) u
    | CUCResult.assertFail => Except.error "AssertionError"
    | CUCResult.raisedValueError => Except.error "ValueError"
    | CUCResult.fuelOut => Except.error "nonterminating"

/-- `QueryManager.solve(facts, rules)` from src/tisane/smt/query_manager.py
lines 88-102, restricted to the `updated_facts` component of its return
value.  `updated_facts` starts as the empty list; the rule batches are
processed in registration order. -/
def solve {R F : Type} [DecidableEq F] (check : List R → List F → CheckResult F)
    (resolve : List F → List F) (fuel : Nat) (facts : List F)
    (batches : List (List R)) : Except String (List F) :=
  solveGo check resolve fuel facts batches [] []

/-- `all_checks_ok … batches added` says every batch iteration of
`QueryManager.solve`'s loop over `batches` (with `added` rules already in
the solver) returns normally from `check_update_constraints`. -/
def all_checks_ok {R F : Type} [DecidableEq F] (check : List R → List F → CheckResult F)
    (resolve : List F → List F) (fuel : Nat) (facts : List F) :
    List (List R) → List R → Bool
  | [], _ => true
  | batch :: rest, added =>
    (check_update_constraints (check (added ++ batch)) resolve fuel facts).isOk
      && all_checks_ok check resolve fuel facts rest (added ++ batch)

end QueryManager

/-! ### query_manager.py: QueryManager.postprocess_query_results -/

/-- The dictionary produced by the nested `parse_facts` helper of
`QueryManager.postprocess_query_results` (src/tisane/smt/query_manager.py
lines 217-226): a fact `Func(a, b)` parsed into its function name and its
two operand names (`fact_dict['start']`, `fact_dict['end']`). -/
structure FactDict where
  function : String
  start : String
  endName : String
deriving DecidableEq

/-- Kind of a conceptual-graph edge: `Graph.cause` adds a causal edge,
`Graph.correlate` a correlational one. -/
inductive EdgeKind where
  | causal
  | correlational
deriving DecidableEq

/-- Modelled from the spec: the conceptual `Graph` class lives in
tisane/graph.py, which is not under src/; the spec describes it as a
collection of typed edges between variables, so the embedding records the
edges added so far. -/
structure Graph where
  edges : List (EdgeKind × AbstractVariable × AbstractVariable)
deriving DecidableEq

/-- Modelled from the spec: `Graph.cause` from tisane/graph.py is not under
src/; per the spec, the Cause predicate yields "a directed causal edge"
between the two variables. -/
def Graph.cause (g : Graph) (start_var end_var : AbstractVariable) : Graph :=
  ⟨g.edges ++ [(EdgeKind.causal, start_var, end_var)]⟩

/-- Modelled from the spec: `Graph.correlate` from tisane/graph.py is not
under src/; per the spec, Correlate/Interaction yield "an undirected
correlational edge" between the two variables. -/
def Graph.correlate (g : Graph) (start_var end_var : AbstractVariable) : Graph :=
  ⟨g.edges ++ [(EdgeKind.correlational, start_var, end_var)]⟩

/-- The `output_obj` parameter of `postprocess_query_results`: a `Graph`, a
`StatisticalModel` (left opaque here — casting to it is unimplemented in
the source), or a `Design`. -/
inductive OutputObj where
  | graph (g : Graph)
  | statisticalModel
  | design
deriving DecidableEq

/-- Exceptions `postprocess_query_results` can raise: `KeyError` from the
`var_names_to_variables[...]` lookups (a fatal lookup error naming the
unknown variable), `NotImplementedError` from the StatisticalModel and
Design branches. -/
inductive CastError where
  | lookupError (name : String)
  | notImplemented
deriving DecidableEq

namespace QueryManager

/-- One iteration of the `for f in updated_facts` loop of
`QueryManager.postprocess_query_results` (src/tisane/smt/query_manager.py
lines 256-284).  In the Graph branch both operand names are looked up in
`var_names_to_variables` (KeyError on a missing name), then the edge is
added: `Cause` via `output_obj.cause`, `Correlate` via
`output_obj.correlate`, and — by the second, separate `if` — `Interaction`
also via `output_obj.correlate`.  The StatisticalModel and Design branches
raise NotImplementedError. -/
def apply_fact (var_names_to_variables : List (String × AbstractVariable))
    (output_obj : OutputObj) (f : FactDict) : Except CastError OutputObj :=
  match output_obj with
  | OutputObj.graph g =>
    match List.lookup f.start var_names_to_variables with
    | none => Except.error (CastError.lookupError f.start)
    | some start_var =>
      match List.lookup f.endName var_names_to_variables with
      | none => Except.error (CastError.lookupError f.endName)
      | some end_var =>
        let g1 := if f.function = "Cause" then g.cause start_var end_var
                  else if f.function = "Correlate" then g.correlate start_var end_var
                  else g
        let g2 := if f.function = "Interaction" then g1.correlate start_var end_var
                  else g1
        Except.ok (OutputObj.graph g2)
  | OutputObj.statisticalModel => Except.error CastError.notImplemented
  | OutputObj.design => Except.error CastError.notImplemented

/-- `QueryManager.postprocess_query_results(model, updated_facts, input_obj,
output_obj)` from src/tisane/smt/query_manager.py lines 215-286.  `model` is
the z3 satisfying assignment, embedded as a truth valuation on facts; the
source never consults it in any branch (only the commented-out
`get_model_consts` did).  `var_names_to_variables` is the registry built
from `input_obj.get_variables()`.  The facts are processed in order; the
first raised exception aborts the loop. -/
def postprocess_query_results (model : FactDict → Bool) (updated_facts : List FactDict)
    (var_names_to_variables : List (String × AbstractVariable))
    (output_obj : OutputObj) : Except CastError OutputObj :=
  updated_facts.foldlM (fun acc f => apply_fact var_names_to_variables acc f) output_obj

end QueryManager

/-! ### code_generator.py: generate_statsmodels_formula -/

/-- The fields of `tisane.statistical_model.StatisticalModel` that
`generate_statsmodels_formula` reads: `dependent_variable`, `main_effects`,
`interaction_effects` and `random_effects`. -/
structure StatisticalModel where
  dependent_variable : AbstractVariable
  main_effects : List AbstractVariable
  interaction_effects : List AbstractVariable
  random_effects : List RandomEffect
deriving DecidableEq

/-- One step of the name-joining loops of `generate_statsmodels_formula`
(src/tisane/code_generator.py lines 159-163 and 168-172): the first name
starts the code string, later names are appended as `" + name"`. -/
def concatPlus (code : String) (var_name : String) : String :=
  if code.length = 0 then var_name else code ++ " + " ++ var_name

/-- Python's `list.sort()` on the collected name strings (ascending
lexicographic order), embedded as insertion sort by `≤` on `String`. -/
def sortNames (names : List String) : List String :=
  List.insertionSort (fun a b => a ≤ b) names

/-- The `isinstance` discipline of the random-effects loop of
`generate_statsmodels_formula` (src/tisane/code_generator.py lines
175-185): each entry must be a `RandomSlope` (first branch) or a
`RandomIntercept` (the `else` branch's `assert`); a correlated or
uncorrelated slope-intercept pair is neither class, so it fails the
assert. -/
def random_effects_loop_ok (random_effects : List RandomEffect) : Bool :=
  random_effects.all fun rc =>
    match rc with
    | RandomEffect.slope _ => true
    | RandomEffect.intercept _ => true
    | RandomEffect.correlated _ => false
    | RandomEffect.uncorrelated _ => false

/-- `generate_statsmodels_formula(statistical_model)` from
src/tisane/code_generator.py lines 152-198.  Main-effect and
interaction-effect names are collected, alphabetized with `.sort()`, and
joined with `" + "`.  The random-effects loop contributes nothing to
`random_code` (every branch is `pass`) but its `assert` fails on any entry
that is neither a `RandomSlope` nor a `RandomIntercept`; the embedding
returns `none` for that AssertionError.  The returned formula is wrapped in
single quotes (`"\x27"`). -/
def generate_statsmodels_formula (statistical_model : StatisticalModel) :
    Option String :=
  let dv_code := statistical_model.dependent_variable.name ++ " ~ "
  let sm_main_effects_names :=
    sortNames (statistical_model.main_effects.map fun v => v.name)
  let main_code := sm_main_effects_names.foldl concatPlus ""
  let sm_interaction_effects_names :=
    sortNames (statistical_model.interaction_effects.map fun v => v.name)
  let interaction_code := sm_interaction_effects_names.foldl concatPlus ""
  if random_effects_loop_ok statistical_model.random_effects then
    let random_code := ""
    let post_main_connector :=
      if main_code.length > 0 ∧ (interaction_code.length > 0 ∨ random_code.length > 0)
      then " + " else ""
    let post_interaction_connector :=
      if interaction_code.length > 0 ∧ random_code.length > 0 then " + " else ""
    some ("\x27" ++ dv_code ++ main_code ++ post_main_connector ++ interaction_code
      ++ post_interaction_connector ++ random_code ++ "\x27")
  else
    none

/-! ### Derived description of the graph branch of result casting -/

/-- The edge contributed by one fact in the Graph branch of
`postprocess_query_results`, read off the dispatch on
`fact_dict['function']`: `Cause` adds a causal edge, `Correlate` and
`Interaction` each add a correlational edge, any other function name adds
nothing; a fact whose operand names do not both resolve contributes no edge
(the loop raises before reaching the dispatch). -/
def edge_of_fact (var_names_to_variables : List (String × AbstractVariable))
    (f : FactDict) : List (EdgeKind × AbstractVariable × AbstractVariable) :=
  match List.lookup f.start var_names_to_variables,
      List.lookup f.endName var_names_to_variables with
  | some sv, some ev =>
    if f.function = "Cause" then [(EdgeKind.causal, sv, ev)]
    else if f.function = "Correlate" then [(EdgeKind.correlational, sv, ev)]
    else if f.function = "Interaction" then [(EdgeKind.correlational, sv, ev)]
    else []
  | _, _ => []

/-! ### Concrete fixtures used by the witnesses -/

/-- A solver oracle over `Nat` facts: unsatisfiable (with core `[99]`)
whenever the fact `99` is asserted, satisfiable otherwise. -/
def oracle99 : List Nat → QueryManager.CheckResult Nat := fun a =>
  if 99 ∈ a then QueryManager.CheckResult.unsat [99] else QueryManager.CheckResult.sat

/-- A solver oracle that always reports an indeterminate state. -/
def oracleUnknown : List Nat → QueryManager.CheckResult Nat := fun _ =>
  QueryManager.CheckResult.unknown

/-- A resolver that answers "none": every member of the conflict core is
discarded. -/
def discardAll : List Nat → List Nat := fun _ => []

/-- A two-batch solver oracle: with rule `1` loaded, asserting fact `5` is
the conflict; without it, asserting fact `6` is the conflict. -/
def ruleOracle : List Nat → List Nat → QueryManager.CheckResult Nat := fun rules facts =>
  if 1 ∈ rules then
    (if 5 ∈ facts then QueryManager.CheckResult.unsat [5] else QueryManager.CheckResult.sat)
  else
    (if 6 ∈ facts then QueryManager.CheckResult.unsat [6] else QueryManager.CheckResult.sat)

/-- A model with one main effect and no random effects. -/
def smPlain : StatisticalModel := ⟨⟨"Math"⟩, [⟨"HomeWork"⟩], [], []⟩

/-- The same model as `smPlain` except that its `random_effects` list holds
a `CorrelatedRandomSlopeAndIntercept`. -/
def smWithPair : StatisticalModel :=
  ⟨⟨"Math"⟩, [⟨"HomeWork"⟩], [],
    [RandomEffect.correlated ⟨⟨⟨"HomeWork"⟩, ⟨"Student"⟩⟩, ⟨⟨"Student"⟩⟩⟩]⟩

/-- The same model as `smPlain` except that its `random_effects` list holds
a plain `RandomSlope`. -/
def smWithSlope : StatisticalModel :=
  ⟨⟨"Math"⟩, [⟨"HomeWork"⟩], [], [RandomEffect.slope ⟨⟨"HomeWork"⟩, ⟨"Student"⟩⟩]⟩

/-- A model whose main effects are stored as `[SES, HomeWork]`. -/
def smOrderA : StatisticalModel := ⟨⟨"Math"⟩, [⟨"SES"⟩, ⟨"HomeWork"⟩], [], []⟩

/-- A model whose main effects are stored as `[HomeWork, SES]`. -/
def smOrderB : StatisticalModel := ⟨⟨"Math"⟩, [⟨"HomeWork"⟩, ⟨"SES"⟩], [], []⟩

/-- The variable registry `{HW ↦ HW, Math ↦ Math}`. -/
def regHW : List (String × AbstractVariable) := [("HW", ⟨"HW"⟩), ("Math", ⟨"Math"⟩)]

/-! ## Theorems -/

/-- C1 counterexample: with `iv = Race`, `groups = Student` and main effects
`[HomeWork]` (so `iv` is not among the main effects), constructing either
slope-intercept pair succeeds, where the claim requires a construction
error. -/
theorem slope_intercept_construction_succeeds_cex :
    CorrelatedRandomSlopeAndIntercept.init ⟨"Race"⟩ ⟨"Student"⟩
        = Except.ok ⟨⟨⟨"Race"⟩, ⟨"Student"⟩⟩, ⟨⟨"Student"⟩⟩⟩
    ∧ UncorrelatedRandomSlopeAndIntercept.init ⟨"Race"⟩ ⟨"Student"⟩
        = Except.ok ⟨⟨⟨"Race"⟩, ⟨"Student"⟩⟩, ⟨⟨"Student"⟩⟩⟩
    ∧ (⟨"Race"⟩ : AbstractVariable) ∉ ([⟨"HomeWork"⟩] : List AbstractVariable) := by
  refine ⟨rfl, rfl, ?_⟩
  decide

/-- C1 (amended): constructing a `CorrelatedRandomSlopeAndIntercept` or an
`UncorrelatedRandomSlopeAndIntercept` never fails — the constructors
perform no validation against any main-effects set and always succeed,
storing the slope `(iv, groups)` and the intercept `(groups)`. -/
theorem slope_intercept_construction_never_fails (iv groups : AbstractVariable) :
    CorrelatedRandomSlopeAndIntercept.init iv groups
        = Except.ok ⟨⟨iv, groups⟩, ⟨groups⟩⟩
    ∧ UncorrelatedRandomSlopeAndIntercept.init iv groups
        = Except.ok ⟨⟨iv, groups⟩, ⟨groups⟩⟩ :=
  ⟨rfl, rfl⟩

/-- C2 counterexample: on the conflict core `[f0]`, answering `-1` does not
make the resolver return with the core dropped — the `while True` loop does
`pass` and prompts again, so no empty retained set is ever returned. -/
theorem elicit_user_input_minus_one_cex :
    QueryManager.elicit_user_input ["f0"] [(-1 : Int)] = QueryManager.ElicitResult.pending
    ∧ QueryManager.elicit_user_input ["f0"] [(-1 : Int)]
        ≠ QueryManager.ElicitResult.returned [] := by
  decide

/-- C2 (amended): whenever `elicit_user_input` returns, the retained-clause
list is a non-empty subset of the conflict core (in fact the singleton at
the selected index); answering `-1` never produces a return with an empty
retained set — the prompt merely repeats. -/
theorem elicit_user_input_returns_nonempty_subset {α : Type} (unsat_core : List α) :
    ∀ (responses : List Int) (keep : List α),
      QueryManager.elicit_user_input unsat_core responses
          = QueryManager.ElicitResult.returned keep →
      keep ≠ [] ∧ ∀ f ∈ keep, f ∈ unsat_core := by
  intro responses
  induction responses with
  | nil =>
    intro keep h
    simp [QueryManager.elicit_user_input] at h
  | cons idx rest ih =>
    intro keep h
    rw [QueryManager.elicit_user_input] at h
    by_cases hneg : idx = -1
    · rw [if_pos hneg] at h
      exact ih keep h
    · rw [if_neg hneg] at h
      split at h
      · rename_i hrange
        cases h
        refine ⟨by simp, ?_⟩
        intro f hf
        rw [List.mem_singleton] at hf
        subst hf
        exact List.get_mem unsat_core _ _
      · cases h

/-- C2 witness: with core `[a, b]` and the single answer `1`, the resolver
returns `[b]`, which is non-empty and a subset of the core. -/
theorem elicit_user_input_returns_nonempty_subset_witness :
    (["b"] ≠ ([] : List String)) ∧ ∀ f ∈ ["b"], f ∈ ["a", "b"] :=
  elicit_user_input_returns_nonempty_subset ["a", "b"] [(1 : Int)] ["b"] (by decide)

/-- C5: `update_clauses` first verifies each retained clause is in the
conflict core (an AssertionError — `none` — otherwise); when the check
passes it returns the pushed constraints filtered in their original
relative order, keeping exactly those that are not in the conflict core or
are retained — in particular every pushed fact outside the core and every
retained clause that was pushed. -/
theorem update_clauses_spec {F : Type} [DecidableEq F]
    (pushed_constraints unsat_core keep_clause : List F) :
    ((∀ c ∈ keep_clause, c ∈ unsat_core) →
      ∃ updated,
        QueryManager.update_clauses pushed_constraints unsat_core keep_clause = some updated
        ∧ updated.Sublist pushed_constraints
        ∧ (∀ f, f ∈ updated ↔ f ∈ pushed_constraints ∧ (f ∉ unsat_core ∨ f ∈ keep_clause))
        ∧ ∀ c ∈ keep_clause, c ∈ pushed_constraints → c ∈ updated)
    ∧ ((∃ c ∈ keep_clause, c ∉ unsat_core) →
      QueryManager.update_clauses pushed_constraints unsat_core keep_clause = none) := by
  constructor
  · intro hkeep
    rw [QueryManager.update_clauses, if_pos hkeep]
    refine ⟨_, rfl, List.filter_sublist _, ?_, ?_⟩
    · intro f
      rw [List.mem_filter]
      constructor
      · rintro ⟨hp, hcond⟩
        refine ⟨hp, ?_⟩
        by_cases hco : f ∈ unsat_core ∧ f ∉ keep_clause
        · rw [if_pos hco] at hcond
          cases hcond
        · rcases not_and_or.mp hco with h | h
          · exact Or.inl h
          · exact Or.inr (not_not.mp h)
      · rintro ⟨hp, hor⟩
        refine ⟨hp, ?_⟩
        rw [if_neg]
        rintro ⟨hin, hout⟩
        rcases hor with h | h
        · exact h hin
        · exact hout h
    · intro c hc hp
      rw [List.mem_filter]
      refine ⟨hp, ?_⟩
      rw [if_neg]
      rintro ⟨_, hout⟩
      exact hout hc
  · rintro ⟨c, hc, hnot⟩
    rw [QueryManager.update_clauses, if_neg]
    intro hall
    exact hnot (hall c hc)

/-- C5 witness: with pushed `[1, 2, 3]`, core `[2, 3]` and retained `[3]`
the rewrite succeeds, while the retained clause `[5]` (not in the core)
trips the membership assertion. -/
theorem update_clauses_spec_witness :
    (QueryManager.update_clauses ([1, 2, 3] : List Nat) [2, 3] [3]).isSome = true
    ∧ QueryManager.update_clauses ([1, 2, 3] : List Nat) [2, 3] [5] = none := by
  constructor
  · obtain ⟨u, hu, -⟩ := (update_clauses_spec ([1, 2, 3] : List Nat) [2, 3] [3]).1 (by decide)
    rw [hu]
    rfl
  · exact (update_clauses_spec ([1, 2, 3] : List Nat) [2, 3] [5]).2 ⟨5, by decide, by decide⟩

/-- C7: the StatisticalModel branch of result casting never populates a
model specification: with no resolved facts the output object is returned
unchanged, and with any resolved fact the branch raises
NotImplementedError. -/
theorem postprocess_statistical_model_not_populated (model : FactDict → Bool)
    (updated_facts : List FactDict)
    (var_names_to_variables : List (String × AbstractVariable)) :
    (updated_facts = [] →
      QueryManager.postprocess_query_results model updated_facts var_names_to_variables
          OutputObj.statisticalModel
        = Except.ok OutputObj.statisticalModel)
    ∧ (updated_facts ≠ [] →
      QueryManager.postprocess_query_results model updated_facts var_names_to_variables
          OutputObj.statisticalModel
        = Except.error CastError.notImplemented) := by
  constructor
  · intro h
    subst h
    rfl
  · intro h
    match updated_facts, h with
    | f :: rest, _ => rfl

/-- C7 witness: with one resolved fact, casting to a statistical model
raises NotImplementedError. -/
theorem postprocess_statistical_model_not_populated_witness :
    QueryManager.postprocess_query_results (fun _ => true) [⟨"Cause", "HW", "Math"⟩]
        regHW OutputObj.statisticalModel
      = Except.error CastError.notImplemented :=
  (postprocess_statistical_model_not_populated (fun _ => true) [⟨"Cause", "HW", "Math"⟩]
    regHW).2 (by decide)

/-- C6: whenever the solver reports a state that is neither SAT nor UNSAT —
at the first check of a round, or at the re-check after a conflict rewrite —
`check_update_constraints` raises ValueError at once; the result is the
raised error for every remaining fuel, so the check is not retried. -/
theorem solver_indeterminate_raises {F : Type} [DecidableEq F]
    (check : List F → QueryManager.CheckResult F) (resolve : List F → List F)
    (fuel : Nat) (assertions : List F) :
    (check assertions = QueryManager.CheckResult.unknown →
      QueryManager.check_update_constraints check resolve (fuel + 1) assertions
        = QueryManager.CUCResult.raisedValueError)
    ∧ (∀ core updated, check assertions = QueryManager.CheckResult.unsat core →
      0 < core.length →
      QueryManager.update_clauses assertions core (resolve core) = some updated →
      check updated = QueryManager.CheckResult.unknown →
      QueryManager.check_update_constraints check resolve (fuel + 1) assertions
        = QueryManager.CUCResult.raisedValueError) := by
  constructor
  · intro h
    simp [QueryManager.check_update_constraints, h]
  · intro core updated hunsat hpos hupd hunknown
    simp [QueryManager.check_update_constraints, hunsat, hpos, hupd, hunknown]

/-- C6 witness: a solver oracle that always answers `unknown` makes the
query fail with ValueError immediately. -/
theorem solver_indeterminate_raises_witness :
    QueryManager.check_update_constraints oracleUnknown discardAll (0 + 1) ([] : List Nat)
      = QueryManager.CUCResult.raisedValueError :=
  (solver_indeterminate_raises oracleUnknown discardAll 0 []).1 rfl

/-- C4 counterexample: under a satisfying assignment that values the fact
`Cause(HW, Math)` as not-true, result casting to a graph still adds the
causal edge HW → Math — the Graph branch never consults the model, so "no
edge is added for a fact whose truth value is not true" fails. -/
theorem postprocess_adds_edge_despite_false_truth_cex :
    (fun _ => false : FactDict → Bool) ⟨"Cause", "HW", "Math"⟩ = false
    ∧ QueryManager.postprocess_query_results (fun _ => false) [⟨"Cause", "HW", "Math"⟩]
        regHW (OutputObj.graph ⟨[]⟩)
      = Except.ok (OutputObj.graph ⟨[(EdgeKind.causal, ⟨"HW"⟩, ⟨"Math"⟩)]⟩) := by
  exact ⟨rfl, by decide⟩

/-- C4 (amended): for every model valuation — the Graph branch never reads
it — result casting adds, for each resolved fact, exactly the edge its
predicate dictates (`Cause` a causal edge, `Correlate` and `Interaction` a
correlational edge, anything else none) between the variables named by the
fact, looked up in the caller's registry; a fact whose start or end name is
unknown raises a fatal lookup error naming it. -/
theorem postprocess_graph_edges (model : FactDict → Bool)
    (var_names_to_variables : List (String × AbstractVariable))
    (updated_facts : List FactDict) (g : Graph) :
    ((∀ f ∈ updated_facts, (List.lookup f.start var_names_to_variables).isSome = true
        ∧ (List.lookup f.endName var_names_to_variables).isSome = true) →
      QueryManager.postprocess_query_results model updated_facts var_names_to_variables
          (OutputObj.graph g)
        = Except.ok (OutputObj.graph
            ⟨g.edges ++ updated_facts.flatMap (edge_of_fact var_names_to_variables)⟩))
    ∧ (∀ f rest, updated_facts = f :: rest →
      List.lookup f.start var_names_to_variables = none →
      QueryManager.postprocess_query_results model updated_facts var_names_to_variables
          (OutputObj.graph g)
        = Except.error (CastError.lookupError f.start))
    ∧ (∀ f rest sv, updated_facts = f :: rest →
      List.lookup f.start var_names_to_variables = some sv →
      List.lookup f.endName var_names_to_variables = none →
      QueryManager.postprocess_query_results model updated_facts var_names_to_variables
          (OutputObj.graph g)
        = Except.error (CastError.lookupError f.endName)) := by
  refine ⟨?_, ?_, ?_⟩
  · induction updated_facts generalizing g with
    | nil =>
      intro _
      rw [List.flatMap_nil, List.append_nil]
      rfl
    | cons f rest ih =>
      intro h
      obtain ⟨⟨hs, he⟩, hrest⟩ := List.forall_mem_cons.mp h
      obtain ⟨sv, hsv⟩ := Option.isSome_iff_exists.mp hs
      obtain ⟨ev, hev⟩ := Option.isSome_iff_exists.mp he
      have happ : QueryManager.apply_fact var_names_to_variables (OutputObj.graph g) f
          = Except.ok (OutputObj.graph
              ⟨g.edges ++ edge_of_fact var_names_to_variables f⟩) := by
        rw [QueryManager.apply_fact, hsv, hev]
        rw [edge_of_fact, hsv, hev]
        by_cases hca : f.function = "Cause"
        · have hni : ¬f.function = "Interaction" := by rw [hca]; decide
          simp [hca, hni, Graph.cause]
        · by_cases hco : f.function = "Correlate"
          · have hni : ¬f.function = "Interaction" := by rw [hco]; decide
            simp [hca, hco, hni, Graph.correlate]
          · by_cases hin : f.function = "Interaction"
            · simp [hca, hco, hin, Graph.correlate]
            · simp [hca, hco, hin]
      rw [QueryManager.postprocess_query_results, List.foldlM_cons, happ]
      show QueryManager.postprocess_query_results model rest var_names_to_variables
          (OutputObj.graph ⟨g.edges ++ edge_of_fact var_names_to_variables f⟩) = _
      rw [ih _ hrest]
      simp [List.flatMap_cons, List.append_assoc]
  · intro f rest hlist hnone
    subst hlist
    rw [QueryManager.postprocess_query_results, List.foldlM_cons]
    rw [QueryManager.apply_fact, hnone]
    rfl
  · intro f rest sv hlist hsome hnone
    subst hlist
    rw [QueryManager.postprocess_query_results, List.foldlM_cons]
    rw [QueryManager.apply_fact, hsome, hnone]
    rfl

/-- C4 witness: with both names resolvable, a Cause fact and an Interaction
fact produce exactly their causal and correlational edges; a fact whose
start name is unknown raises the lookup error naming it. -/
theorem postprocess_graph_edges_witness :
    QueryManager.postprocess_query_results (fun _ => false)
        [⟨"Cause", "HW", "Math"⟩, ⟨"Interaction", "HW", "Math"⟩] regHW (OutputObj.graph ⟨[]⟩)
      = Except.ok (OutputObj.graph
          ⟨(Graph.mk []).edges
            ++ [FactDict.mk "Cause" "HW" "Math",
                FactDict.mk "Interaction" "HW" "Math"].flatMap (edge_of_fact regHW)⟩)
    ∧ QueryManager.postprocess_query_results (fun _ => false)
        [⟨"Cause", "Nope", "Math"⟩] regHW (OutputObj.graph ⟨[]⟩)
      = Except.error (CastError.lookupError "Nope") := by
  constructor
  · exact (postprocess_graph_edges (fun _ => false) regHW
      [⟨"Cause", "HW", "Math"⟩, ⟨"Interaction", "HW", "Math"⟩] ⟨[]⟩).1 (by decide)
  · exact (postprocess_graph_edges (fun _ => false) regHW
      [⟨"Cause", "Nope", "Math"⟩] ⟨[]⟩).2.1 ⟨"Cause", "Nope", "Math"⟩ [] rfl (by decide)

/-- C8: the emitted formula is deterministic for a fixed set of effects —
two models agreeing on the dependent variable and the random effects whose
stored main-effect (and interaction-effect) name lists are permutations of
each other produce identical formula strings, because both name lists are
alphabetized (the orders actually emitted, `sortNames` of the stored
names, are sorted ascending). -/
theorem generate_statsmodels_formula_alphabetized (sm1 sm2 : StatisticalModel)
    (hdv : sm1.dependent_variable = sm2.dependent_variable)
    (hmain : List.Perm (sm1.main_effects.map fun v => v.name)
      (sm2.main_effects.map fun v => v.name))
    (hint : List.Perm (sm1.interaction_effects.map fun v => v.name)
      (sm2.interaction_effects.map fun v => v.name))
    (hre : sm1.random_effects = sm2.random_effects) :
    generate_statsmodels_formula sm1 = generate_statsmodels_formula sm2
    ∧ List.Sorted (fun a b => a ≤ b) (sortNames (sm1.main_effects.map fun v => v.name))
    ∧ List.Sorted (fun a b => a ≤ b)
        (sortNames (sm1.interaction_effects.map fun v => v.name)) := by
  have hsort : ∀ l1 l2 : List String, List.Perm l1 l2 → sortNames l1 = sortNames l2 := by
    intro l1 l2 hp
    exact List.eq_of_perm_of_sorted
      (((List.perm_insertionSort _ l1).trans hp).trans (List.perm_insertionSort _ l2).symm)
      (List.sorted_insertionSort _ l1) (List.sorted_insertionSort _ l2)
  refine ⟨?_, List.sorted_insertionSort _ _, List.sorted_insertionSort _ _⟩
  rw [generate_statsmodels_formula, generate_statsmodels_formula,
    hdv, hre, hsort _ _ hmain, hsort _ _ hint]

/-- C8 witness: storing the main effects as `[SES, HomeWork]` or as
`[HomeWork, SES]` yields the same formula string. -/
theorem generate_statsmodels_formula_alphabetized_witness :
    generate_statsmodels_formula smOrderA = generate_statsmodels_formula smOrderB :=
  (generate_statsmodels_formula_alphabetized smOrderA smOrderB rfl (by decide) (by decide)
    rfl).1

/-- C10 counterexample: `smPlain` and `smWithPair` agree on the dependent
variable, main effects and interaction effects and differ only in
`random_effects`, yet the formula function does not return identical
strings: the pair entry is neither a `RandomSlope` nor a `RandomIntercept`,
so the loop's isinstance assert fails (embedded as `none`). -/
theorem generate_statsmodels_formula_random_effects_cex :
    smPlain.dependent_variable = smWithPair.dependent_variable
    ∧ smPlain.main_effects = smWithPair.main_effects
    ∧ smPlain.interaction_effects = smWithPair.interaction_effects
    ∧ generate_statsmodels_formula smWithPair = none
    ∧ generate_statsmodels_formula smPlain ≠ generate_statsmodels_formula smWithPair := by
  refine ⟨rfl, rfl, rfl, by decide, by decide⟩

/-- C10 (amended): the formula string never depends on the random effects
as long as every entry passes the loop's isinstance assert (is a
`RandomSlope` or a `RandomIntercept`): two such models agreeing on the
dependent variable, main effects and interaction effects produce identical
strings, the random-effects contribution being always empty; a model whose
random effects include a correlated or uncorrelated slope-intercept pair
instead fails with an AssertionError. -/
theorem generate_statsmodels_formula_ignores_random_effects (sm1 sm2 : StatisticalModel)
    (hdv : sm1.dependent_variable = sm2.dependent_variable)
    (hmain : sm1.main_effects = sm2.main_effects)
    (hint : sm1.interaction_effects = sm2.interaction_effects)
    (h1 : random_effects_loop_ok sm1.random_effects = true)
    (h2 : random_effects_loop_ok sm2.random_effects = true) :
    generate_statsmodels_formula sm1 = generate_statsmodels_formula sm2 := by
  rw [generate_statsmodels_formula, generate_statsmodels_formula, hdv, hmain, hint, h1, h2]

/-- C10 witness: adding a plain random slope to `smPlain` leaves the
formula string unchanged. -/
theorem generate_statsmodels_formula_ignores_random_effects_witness :
    generate_statsmodels_formula smPlain = generate_statsmodels_formula smWithSlope :=
  generate_statsmodels_formula_ignores_random_effects smPlain smWithSlope rfl rfl rfl
    (by decide) (by decide)

/-- Removing at least one element by filtering strictly shrinks a list. -/
theorem filter_length_lt_of_mem {α : Type} (p : α → Bool) :
    ∀ (l : List α) (x : α), x ∈ l → p x = false → (l.filter p).length < l.length := by
  intro l
  induction l with
  | nil =>
    intro x hx
    cases hx
  | cons a l ih =>
    intro x hx hpx
    rcases List.mem_cons.mp hx with h | h
    · subst h
      rw [List.filter_cons_of_neg (by rw [hpx]; decide)]
      exact Nat.lt_succ_of_le (List.length_filter_le p l)
    · by_cases hpa : p a = true
      · rw [List.filter_cons_of_pos hpa]
        exact Nat.succ_lt_succ (ih x h hpx)
      · rw [List.filter_cons_of_neg (by simpa using hpa)]
        exact Nat.lt_succ_of_lt (ih x h hpx)

/-- C3: with a solver oracle whose conflict cores are non-empty subsets of
the checked assertions and a resolver that keeps a subset of the core and
discards at least one of its members, each conflict round strictly shrinks
the asserted fact list, and the resolve-and-recheck loop needs fewer than
(initial fact count) + 1 rounds: fuel `assertions.length + 1` is never
exhausted. -/
theorem conflict_resolution_loop_terminates {F : Type} [DecidableEq F]
    (check : List F → QueryManager.CheckResult F) (resolve : List F → List F)
    (hcheck : ∀ a core, check a = QueryManager.CheckResult.unsat core →
      core ≠ [] ∧ ∀ c ∈ core, c ∈ a)
    (hsub : ∀ core, ∀ c ∈ resolve core, c ∈ core)
    (hdrop : ∀ core, core ≠ [] → ∃ c ∈ core, c ∉ resolve core)
    (assertions : List F) :
    QueryManager.check_update_constraints check resolve (assertions.length + 1) assertions
      ≠ QueryManager.CUCResult.fuelOut
    ∧ ∀ a core, check a = QueryManager.CheckResult.unsat core →
      ∃ u, QueryManager.update_clauses a core (resolve core) = some u
        ∧ u.length < a.length := by
  have decrease : ∀ a core, check a = QueryManager.CheckResult.unsat core →
      ∃ u, QueryManager.update_clauses a core (resolve core) = some u
        ∧ u.length < a.length := by
    intro a core hu
    obtain ⟨hne, hsubset⟩ := hcheck a core hu
    obtain ⟨c, hc_core, hc_notkeep⟩ := hdrop core hne
    rw [QueryManager.update_clauses, if_pos (hsub core)]
    refine ⟨_, rfl, ?_⟩
    exact filter_length_lt_of_mem _ a c (hsubset c hc_core)
      (by rw [if_pos ⟨hc_core, hc_notkeep⟩])
  have main : ∀ fuel a, List.length a < fuel →
      QueryManager.check_update_constraints check resolve fuel a
        ≠ QueryManager.CUCResult.fuelOut := by
    intro fuel
    induction fuel with
    | zero =>
      intro a ha
      exact absurd ha (Nat.not_lt_zero _)
    | succ n ih =>
      intro a ha
      cases hc : check a with
      | unknown => simp [QueryManager.check_update_constraints, hc]
      | sat => simp [QueryManager.check_update_constraints, hc]
      | unsat core =>
        obtain ⟨u, huc, hlt⟩ := decrease a core hc
        have hne := (hcheck a core hc).1
        have hpos : core.length > 0 := List.length_pos.mpr hne
        have hufuel : List.length u < n := by
          have := Nat.lt_succ_iff.mp ha
          omega
        cases hcu : check u with
        | sat => simp [QueryManager.check_update_constraints, hc, hpos, huc, hcu]
        | unknown => simp [QueryManager.check_update_constraints, hc, hpos, huc, hcu]
        | unsat core2 =>
          simp only [QueryManager.check_update_constraints, hc, hpos, huc, hcu, if_pos]
          exact ih u hufuel
  exact ⟨main _ assertions (Nat.lt_succ_self _), decrease⟩

/-- C3 witness: the oracle whose conflicts are caused by fact `99` together
with the discard-all resolver terminates on `[99]` within the fuel bound
`length + 1`. -/
theorem conflict_resolution_loop_terminates_witness :
    QueryManager.check_update_constraints oracle99 discardAll (List.length [99] + 1) [99]
      ≠ QueryManager.CUCResult.fuelOut := by
  refine (conflict_resolution_loop_terminates oracle99 discardAll ?_ ?_ ?_ [99]).1
  · intro a core h
    rw [oracle99] at h
    by_cases h99 : 99 ∈ a
    · rw [if_pos h99] at h
      injection h with h'
      subst h'
      refine ⟨by decide, ?_⟩
      intro c hc
      rw [List.mem_singleton] at hc
      subst hc
      exact h99
    · rw [if_neg h99] at h
      cases h
  · intro core c hc
    simp [discardAll] at hc
  · intro core hne
    match core, hne with
    | c :: core, _ => exact ⟨c, List.mem_cons_self c core, by simp [discardAll]⟩

/-- The loop of `QueryManager.solve`, run over earlier batches `bs` that all
check out, followed by a final batch `b`: the overall result is exactly the
final batch's `check_update_constraints` on the original facts — earlier
iterations' resolved fact lists (including the incoming `_updated_facts`)
are discarded. -/
theorem solveGo_last_batch {R F : Type} [DecidableEq F]
    (check : List R → List F → QueryManager.CheckResult F)
    (resolve : List F → List F) (fuel : Nat) (facts : List F) (b : List R) :
    ∀ (bs : List (List R)) (added : List R) (u0 : List F),
      QueryManager.all_checks_ok check resolve fuel facts bs added = true →
      QueryManager.solveGo check resolve fuel facts (bs ++ [b]) added u0
        = (QueryManager.check_update_constraints (check (added ++ (bs.flatten ++ b)))
            resolve fuel facts).toExcept := by
  intro bs
  induction bs with
  | nil =>
    intro added u0 _
    rw [List.nil_append, List.flatten_nil, List.nil_append, QueryManager.solveGo]
    cases h : QueryManager.check_update_constraints (check (added ++ b)) resolve fuel facts
      <;> rfl
  | cons b0 rest ih =>
    intro added u0 hok
    rw [QueryManager.all_checks_ok, Bool.and_eq_true] at hok
    obtain ⟨h1, h2⟩ := hok
    rw [List.cons_append, QueryManager.solveGo]
    cases hr : QueryManager.check_update_constraints (check (added ++ b0)) resolve fuel facts
      with
    | ok u =>
      show QueryManager.solveGo check resolve fuel facts (rest ++ [b]) (added ++ b0) u = _
      rw [ih (added ++ b0) u h2]
      have : (added ++ b0) ++ (rest.flatten ++ b) = added ++ ((b0 :: rest).flatten ++ b) := by
        simp [List.flatten_cons, List.append_assoc]
      rw [this]
    | assertFail => rw [hr] at h1; simp [QueryManager.CUCResult.isOk] at h1
    | raisedValueError => rw [hr] at h1; simp [QueryManager.CUCResult.isOk] at h1
    | fuelOut => rw [hr] at h1; simp [QueryManager.CUCResult.isOk] at h1

/-- C9: when every earlier batch iteration returns normally, `solve` over
batches `bs ++ [b]` equals the result of the final batch's
`check_update_constraints` invoked with the original input fact list —
fact removals made while resolving earlier batches are not carried into
later checks, and the returned `updated_facts` is the final batch's
resolved list alone (each iteration overwrites the previous one). -/
theorem solve_checks_use_original_facts {R F : Type} [DecidableEq F]
    (check : List R → List F → QueryManager.CheckResult F)
    (resolve : List F → List F) (fuel : Nat) (facts : List F)
    (bs : List (List R)) (b : List R)
    (h : QueryManager.all_checks_ok check resolve fuel facts bs [] = true) :
    QueryManager.solve check resolve fuel facts (bs ++ [b])
      = (QueryManager.check_update_constraints (check (bs.flatten ++ b)) resolve fuel
          facts).toExcept := by
  rw [QueryManager.solve, solveGo_last_batch check resolve fuel facts b bs [] [] h,
    List.nil_append]

/-- C9 witness: with `ruleOracle`, batch `[0]` resolves away fact `6` (its
check conflicts on `6`), yet the final result over batches `[[0], [1]]` is
batch `[1]`'s check on the original facts `[5, 6]` — which removes `5` and
returns `[6]`, the fact discarded in the earlier round. -/
theorem solve_checks_use_original_facts_witness :
    QueryManager.solve ruleOracle discardAll 3 [5, 6] ([[0]] ++ [[1]])
      = (QueryManager.check_update_constraints (ruleOracle (List.flatten [[0]] ++ [1]))
          discardAll 3 [5, 6]).toExcept
    ∧ QueryManager.solve ruleOracle discardAll 3 [5, 6] ([[0]] ++ [[1]])
      = Except.ok [6] :=
  ⟨solve_checks_use_original_facts ruleOracle discardAll 3 [5, 6] [[0]] [1] (by decide),
    by decide⟩

end Tisane
